import Mathlib

/-!
Verification of the taskmaster API core (src/app.py, src/config.py): a shallow
embedding of the two database models and the eight request handlers, with the
external collaborators (werkzeug hashing, flask_jwt_extended tokens, Flask
dispatch) modelled from the specification where their code is not part of the
repository.  Timestamps are natural numbers (seconds); the clock value used by
a handler is passed in as an explicit `now` argument.
-/

namespace TM

/-- Embeds the SQLAlchemy model User, src/app.py lines 24-38: integer primary
key, unique username and email, and the stored password digest. -/
structure User where
  id : Nat
  username : String
  email : String
  password_hash : String
  deriving DecidableEq, Repr

/-- Embeds the SQLAlchemy model Task, src/app.py lines 41-49: integer primary
key, title, description, status, both timestamps and the owner foreign key
user_id. -/
structure Task where
  id : Nat
  title : String
  description : String
  status : String
  created_at : Nat
  updated_at : Nat
  user_id : Nat
  deriving DecidableEq, Repr

/-- The backing store: the two tables as row lists plus the autoincrement
counters that hand out the next integer primary key of each table. -/
structure DB where
  users : List User
  tasks : List Task
  next_user_id : Nat
  next_task_id : Nat
  deriving DecidableEq, Repr

/-- Modelled from the spec, section 4.2: werkzeug generate_password_hash (an
external library, called at src/app.py line 34) is a one-way transform of the
plaintext; it is modelled as an injective tagging so that verification can
recompute and compare. -/
def generate_password_hash (password : String) : String :=
  "pbkdf2-sha256$" ++ password

/-- Modelled from the spec, section 4.2: werkzeug check_password_hash (called
at src/app.py line 38) recomputes from the candidate and compares against the
stored digest. -/
def check_password_hash (digest password : String) : Bool :=
  digest == generate_password_hash password

/-- The process-wide JWT signing secret, src/app.py line 16. -/
def JWT_SECRET_KEY : String := "secret-key"

/-- The token lifetime configured at src/app.py line 17: timedelta(hours=1),
expressed in seconds. -/
def JWT_ACCESS_TOKEN_EXPIRES : Nat := 3600

/-- Modelled from the spec, section 4.3: a token of flask_jwt_extended (an
external library) carries the subject identity, an expiry timestamp and a
signature over both. -/
structure Token where
  sub : Nat
  exp : Nat
  sig : Nat
  deriving DecidableEq, Repr

/-- Modelled from the spec, section 4.3: the signature over the claims under
the process-wide secret.  Verification only compares this value for equality,
so the exact formula carries no weight. -/
def mac (secret : String) (sub exp : Nat) : Nat :=
  secret.length + 7919 * sub + 104729 * exp

/-- Modelled from the spec, section 4.3: create_access_token (called at
src/app.py line 100) issues a signed token for the given identity whose expiry
is the issue time plus the configured lifetime. -/
def create_access_token (secret : String) (uid now : Nat) : Token :=
  { sub := uid, exp := now + JWT_ACCESS_TOKEN_EXPIRES,
    sig := mac secret uid (now + JWT_ACCESS_TOKEN_EXPIRES) }

/-- Modelled from the spec, section 4.3: verification checks signature
integrity and that the expiry lies strictly in the future; any failure yields
none rather than an exception. -/
def verify_token (secret : String) (t : Token) (now : Nat) : Option Nat :=
  if t.sig = mac secret t.sub t.exp ∧ now < t.exp then some t.sub else none

/-- A decoded JSON request body: an association list of string-valued fields
(every request body of this API carries only string values). -/
abbrev JObj := List (String × String)

/-- Python dict lookup returning an optional value, the basis of both
data.get and data subscription in the handlers. -/
def dictGet (data : JObj) (key : String) : Option String :=
  (data.find? (fun p => p.1 == key)).map (fun p => p.2)

/-- Python data.get(key, dflt) as used in src/app.py lines 144-145 and
203-205: the stored value when the field is present, the default otherwise. -/
def dictGetD (data : JObj) (key dflt : String) : String :=
  (dictGet data key).getD dflt

/-- The exceptions a handler can raise: subscription of a missing field
raises KeyError, and request.get_json raises a bad-request error when no JSON
body can be decoded. -/
inductive Exn where
  | keyError (key : String)
  | badRequest
  deriving DecidableEq, Repr

/-- Equality of handler outcomes is decidable, so concrete requests can be
evaluated inside proofs. -/
instance {ε α : Type} [DecidableEq ε] [DecidableEq α] : DecidableEq (Except ε α) :=
  fun x y =>
    match x, y with
    | .ok a, .ok b =>
      if h : a = b then .isTrue (by rw [h])
      else .isFalse (fun hc => h (Except.ok.inj hc))
    | .error a, .error b =>
      if h : a = b then .isTrue (by rw [h])
      else .isFalse (fun hc => h (Except.error.inj hc))
    | .ok _, .error _ => .isFalse (fun hc => Except.noConfusion hc)
    | .error _, .ok _ => .isFalse (fun hc => Except.noConfusion hc)

/-- The status Flask assigns to an exception that escapes a handler: a
KeyError is an unhandled exception and becomes a 500 server error, while the
error raised by get_json is a 400 client error. -/
def Exn.status : Exn → Nat
  | .keyError _ => 500
  | .badRequest => 400

/-- request.get_json() as called at src/app.py lines 64, 90, 139 and 200:
yields the decoded object, raising when no JSON body is available. -/
def get_json : Option JObj → Except Exn JObj
  | some data => .ok data
  | none => .error .badRequest

/-- Python subscription data[key], raising KeyError when the field is
absent (src/app.py lines 67, 71, 76, 93, 96, 143). -/
def dictItem (data : JObj) (key : String) : Except Exn String :=
  match dictGet data key with
  | some v => .ok v
  | none => .error (.keyError key)

/-- The jsonify payload shapes this API produces.  A task inside taskList is
serialized with all six columns (src/app.py lines 118-125), so the row itself
is the payload content; errorPage stands for the default Flask error document
of the given status. -/
inductive Body where
  | msg (message : String)
  | taskBrief (message : String) (id : Nat) (title description status : String)
  | taskFull (id : Nat) (title description status : String)
      (created_at updated_at : Nat)
  | taskList (tasks : List Task) (count : Nat)
  | loginOk (access_token : Token) (username : String)
  | errorPage (status : Nat)
  deriving DecidableEq, Repr

/-- A finished request: status code, response body, and the store state
after the request. -/
abbrev Resp := (Nat × Body) × DB

/-- Flask dispatch around a handler, src/app.py app routing: an exception
escaping the handler becomes the corresponding error response and the store
is left untouched. -/
def runHandler (db : DB) (r : Except Exn Resp) : Resp :=
  match r with
  | .ok res => res
  | .error e => ((e.status, Body.errorPage e.status), db)

/-- Modelled from the spec, sections 4.3 and 4.5: the jwt_required decorator
of flask_jwt_extended (applied at src/app.py lines 108, 131, 164, 187, 221)
verifies the bearer token before the handler runs and answers 401 without
raising when the token is absent, tampered or expired; otherwise the handler
runs with the identity the token was issued for. -/
def jwt_required (secret : String) (tok : Option Token) (now : Nat) (db : DB)
    (handler : Nat → Except Exn Resp) : Except Exn Resp :=
  match tok with
  | none => .ok ((401, Body.msg "Missing Authorization Header"), db)
  | some t =>
    match verify_token secret t now with
    | none => .ok ((401, Body.msg "Token has expired or is invalid"), db)
    | some uid => handler uid

/-- POST /api/register, src/app.py lines 58-81.  Field subscriptions happen
in source order: username before the username uniqueness check, email before
the email check, password last; each failing check answers 400 and leaves the
store untouched. -/
def register (body : Option JObj) (db : DB) : Except Exn Resp :=
  match get_json body with
  | .error e => .error e
  | .ok data =>
    match dictItem data "username" with
    | .error e => .error e
    | .ok uname =>
      if (db.users.find? (fun u => u.username == uname)).isSome then
        .ok ((400, Body.msg "Username already exists"), db)
      else
        match dictItem data "email" with
        | .error e => .error e
        | .ok mail =>
          if (db.users.find? (fun u => u.email == mail)).isSome then
            .ok ((400, Body.msg "Email already exists"), db)
          else
            match dictItem data "password" with
            | .error e => .error e
            | .ok password =>
              .ok ((201, Body.msg "User created successfully"),
                { db with
                  users := db.users ++ [{
                    id := db.next_user_id,
                    username := uname, email := mail,
                    password_hash := generate_password_hash password }],
                  next_user_id := db.next_user_id + 1 })

/-- POST /api/login, src/app.py lines 84-104.  The Python condition
"not user or not user.check_password(data[...])" short-circuits, so the
password field is only subscripted when the user exists; both failure causes
produce the identical 401 response. -/
def login (body : Option JObj) (now : Nat) (db : DB) : Except Exn Resp :=
  match get_json body with
  | .error e => .error e
  | .ok data =>
    match dictItem data "username" with
    | .error e => .error e
    | .ok uname =>
      match db.users.find? (fun u => u.username == uname) with
      | none => .ok ((401, Body.msg "Invalid credentials"), db)
      | some user =>
        match dictItem data "password" with
        | .error e => .error e
        | .ok password =>
          if check_password_hash user.password_hash password then
            .ok ((200, Body.loginOk
              (create_access_token JWT_SECRET_KEY user.id now) user.username), db)
          else
            .ok ((401, Body.msg "Invalid credentials"), db)

/-- GET /api/tasks, src/app.py lines 107-127 (inside jwt_required): all rows
whose owner is the caller, with their count. -/
def get_tasks (current_user_id : Nat) (db : DB) : Resp :=
  let tasks := db.tasks.filter (fun t => t.user_id == current_user_id)
  ((200, Body.taskList tasks tasks.length), db)

/-- POST /api/tasks, src/app.py lines 130-160 (inside jwt_required): title is
subscripted (KeyError when absent), description and status fall back to their
defaults, both timestamps are set to the current clock value and the owner is
bound to the caller. -/
def create_task (current_user_id : Nat) (body : Option JObj) (now : Nat)
    (db : DB) : Except Exn Resp :=
  match get_json body with
  | .error e => .error e
  | .ok data =>
    match dictItem data "title" with
    | .error e => .error e
    | .ok title =>
      let new_task : Task :=
        { id := db.next_task_id, title := title,
          description := dictGetD data "description" "",
          status := dictGetD data "status" "pending",
          created_at := now, updated_at := now, user_id := current_user_id }
      .ok ((201, Body.taskBrief "Task created successfully" new_task.id
          new_task.title new_task.description new_task.status),
        { db with
          tasks := db.tasks ++ [new_task],
          next_task_id := db.next_task_id + 1 })

/-- GET /api/tasks/(id), src/app.py lines 163-183 (inside jwt_required): the
row is looked up by primary key and owner together; a miss answers the
uniform not-found response. -/
def get_task (current_user_id task_id : Nat) (db : DB) : Resp :=
  match db.tasks.find? (fun t => t.id == task_id && t.user_id == current_user_id) with
  | none => ((404, Body.msg "Task not found"), db)
  | some task =>
      ((200, Body.taskFull task.id task.title task.description task.status
        task.created_at task.updated_at), db)

/-- PUT /api/tasks/(id), src/app.py lines 186-217 (inside jwt_required).  The
three attribute assignments use data.get with the prior value as default; the
session commit emits an UPDATE for the row only when at least one attribute
value actually changed (SQLAlchemy flushes an object only when an attribute
differs from its committed value), and only such an emitted UPDATE fires the
onupdate refresh of updated_at declared at src/app.py line 48.  The response
is built from the in-memory object in both cases. -/
def update_task (current_user_id task_id : Nat) (body : Option JObj)
    (now : Nat) (db : DB) : Except Exn Resp :=
  match db.tasks.find? (fun t => t.id == task_id && t.user_id == current_user_id) with
  | none => .ok ((404, Body.msg "Task not found"), db)
  | some task =>
    match get_json body with
    | .error e => .error e
    | .ok data =>
      let title := dictGetD data "title" task.title
      let description := dictGetD data "description" task.description
      let status := dictGetD data "status" task.status
      if title == task.title && description == task.description
          && status == task.status then
        .ok ((200, Body.taskBrief "Task updated successfully" task.id
          title description status), db)
      else
        let task' : Task := { task with
          title := title, description := description,
          status := status, updated_at := now }
        .ok ((200, Body.taskBrief "Task updated successfully" task'.id
            task'.title task'.description task'.status),
          { db with
            tasks := db.tasks.map
              (fun t => if t.id == task.id then task' else t) })

/-- DELETE /api/tasks/(id), src/app.py lines 220-236 (inside jwt_required):
the row is looked up by primary key and owner together; on a hit the session
deletes exactly that row (by its primary key). -/
def delete_task (current_user_id task_id : Nat) (db : DB) : Resp :=
  match db.tasks.find? (fun t => t.id == task_id && t.user_id == current_user_id) with
  | none => ((404, Body.msg "Task not found"), db)
  | some task =>
      ((200, Body.msg "Task deleted successfully"),
        { db with tasks := db.tasks.filter (fun t => !(t.id == task.id)) })

/-- A concrete task row owned by user 2, used to instantiate the theorems on
a concrete store. -/
def exTask : Task :=
  { id := 5, title := "t", description := "", status := "pending",
    created_at := 0, updated_at := 10, user_id := 2 }

/-- A concrete store holding only exTask. -/
def exDB : DB :=
  { users := [], tasks := [exTask], next_user_id := 1, next_task_id := 6 }

/-- A concrete user row whose stored digest is the hash of the password pw. -/
def exUser : User :=
  { id := 1, username := "alice", email := "alice@example.com",
    password_hash := generate_password_hash "pw" }

/-- A concrete store holding only exUser. -/
def exDBu : DB :=
  { users := [exUser], tasks := [], next_user_id := 2, next_task_id := 1 }

/-- The concrete outcome of a conflicting registration on exDBu. -/
def rRex : (Nat × Body) × DB := ((400, Body.msg "Username already exists"), exDBu)

/-- The concrete outcome of a failed login on exDBu. -/
def rLex : (Nat × Body) × DB := ((401, Body.msg "Invalid credentials"), exDBu)

/-- The concrete outcome of an update of an absent task on exDBu. -/
def rUex : (Nat × Body) × DB := ((404, Body.msg "Task not found"), exDBu)

/-- The id-and-owner lookup misses exactly when the caller owns no row with
that id, whether the id is absent altogether or belongs to another owner. -/
theorem find_owned_eq_none (db : DB) (A task_id : Nat)
    (habs : ∀ u ∈ db.tasks, u.id = task_id → u.user_id ≠ A) :
    db.tasks.find? (fun t => t.id == task_id && t.user_id == A) = none := by
  refine List.find?_eq_none.mpr ?_
  intro u hu hpred
  simp only [Bool.and_eq_true, beq_iff_eq] at hpred
  exact habs u hu hpred.1 hpred.2

/-- A hit of the id-and-owner lookup is a stored row carrying exactly the
requested id and owner. -/
theorem find_owned_spec (db : DB) (A task_id : Nat) (task : Task)
    (h : db.tasks.find? (fun t => t.id == task_id && t.user_id == A) = some task) :
    task ∈ db.tasks ∧ task.id = task_id ∧ task.user_id = A := by
  have hmem := List.mem_of_find?_eq_some h
  have hp := List.find?_some h
  simp only [Bool.and_eq_true, beq_iff_eq] at hp
  exact ⟨hmem, hp.1, hp.2⟩

/-- When the primary-key column of the task table is duplicate-free, rows
with equal ids are the same row. -/
theorem task_id_inj (db : DB) (hnodup : (db.tasks.map Task.id).Nodup)
    {a b : Task} (ha : a ∈ db.tasks) (hb : b ∈ db.tasks) (hid : a.id = b.id) :
    a = b :=
  List.inj_on_of_nodup_map hnodup ha hb hid

/-- Subscription of a present field yields its value. -/
theorem dictItem_some (data : JObj) (key v : String)
    (h : dictGet data key = some v) : dictItem data key = Except.ok v := by
  simp [dictItem, h]

/-- Subscription of an absent field raises KeyError. -/
theorem dictItem_none (data : JObj) (key : String)
    (h : dictGet data key = none) :
    dictItem data key = Except.error (Exn.keyError key) := by
  simp [dictItem, h]

/-- C1: for an authenticated caller, a task id owned by somebody else behaves
exactly like an id that names no task: get, update and delete all answer the
uniform 404 not-found response over the untouched store, a foreign task never
appears in the list result, and no delete by this caller removes a foreign
row. -/
theorem claim1_ownership_confidentiality (db : DB) (A task_id tid2 now : Nat)
    (body : Option JObj) (t : Task)
    (hnodup : (db.tasks.map Task.id).Nodup)
    (habs : ∀ u ∈ db.tasks, u.id = task_id → u.user_id ≠ A)
    (ht : t ∈ db.tasks) (hto : t.user_id ≠ A) :
    get_task A task_id db = ((404, Body.msg "Task not found"), db) ∧
    update_task A task_id body now db =
      Except.ok ((404, Body.msg "Task not found"), db) ∧
    delete_task A task_id db = ((404, Body.msg "Task not found"), db) ∧
    get_tasks A db = ((200, Body.taskList
      (db.tasks.filter (fun u => u.user_id == A))
      (db.tasks.filter (fun u => u.user_id == A)).length), db) ∧
    t ∉ db.tasks.filter (fun u => u.user_id == A) ∧
    t ∈ ((delete_task A tid2 db).2).tasks := by
  have hnone := find_owned_eq_none db A task_id habs
  refine ⟨?_, ?_, ?_, rfl, ?_, ?_⟩
  · simp [get_task, hnone]
  · simp [update_task, hnone]
  · simp [delete_task, hnone]
  · simp only [List.mem_filter, beq_iff_eq]
    exact fun hcon => hto hcon.2
  · cases hfind : db.tasks.find? (fun u => u.id == tid2 && u.user_id == A) with
    | none => simpa [delete_task, hfind] using ht
    | some task0 =>
      obtain ⟨hmem0, _, howner0⟩ := find_owned_spec db A tid2 task0 hfind
      have hne : ¬ t.id = task0.id := by
        intro hideq
        exact hto (by rw [task_id_inj db hnodup ht hmem0 hideq, howner0])
      simp [delete_task, hfind, List.mem_filter, ht, hne]

/-- C1 witness: on the concrete store exDB, user 1 probing the task of
user 2 observes exactly the nonexistent-id behaviour. -/
theorem claim1_witness :
    (exDB.tasks.map Task.id).Nodup ∧
    (∀ u ∈ exDB.tasks, u.id = 5 → u.user_id ≠ 1) ∧
    exTask ∈ exDB.tasks ∧ exTask.user_id ≠ 1 ∧
    (get_task 1 5 exDB = ((404, Body.msg "Task not found"), exDB) ∧
     update_task 1 5 none 0 exDB =
       Except.ok ((404, Body.msg "Task not found"), exDB) ∧
     delete_task 1 5 exDB = ((404, Body.msg "Task not found"), exDB) ∧
     get_tasks 1 exDB = ((200, Body.taskList
       (exDB.tasks.filter (fun u => u.user_id == 1))
       (exDB.tasks.filter (fun u => u.user_id == 1)).length), exDB) ∧
     exTask ∉ exDB.tasks.filter (fun u => u.user_id == 1) ∧
     exTask ∈ ((delete_task 1 5 exDB).2).tasks) :=
  ⟨by decide, by decide, by decide, by decide,
    claim1_ownership_confidentiality exDB 1 5 5 0 none exTask
      (by decide) (by decide) (by decide) (by decide)⟩

/-- C2 fails on the code: an update that supplies only a status equal to the
current status marks no attribute as changed, SQLAlchemy emits no UPDATE, the
onupdate hook never fires, and updated_at stays at 10 instead of advancing to
the current clock value 99; the store is returned completely unchanged. -/
theorem claim2_counterexample :
    update_task 2 5 (some [("status", "pending")]) 99 exDB =
      Except.ok ((200, Body.taskBrief "Task updated successfully" 5 "t" "" "pending"),
        exDB) ∧
    (update_task 2 5 (some [("status", "pending")]) 99 exDB).map
      (fun r => r.2.tasks.map Task.updated_at) = Except.ok [10] ∧
    (10 : Nat) ≠ 99 :=
  ⟨by decide, by decide, by decide⟩

/-- C2 amended: a successful update that changes at least one stored field
value refreshes updated_at of the row to the current clock value; an update
whose supplied values all equal the prior values still answers 200 but emits
no row write, so the store, and with it updated_at, is unchanged. -/
theorem claim2_updated_at_refresh (db : DB) (A task_id now : Nat) (data : JObj)
    (task : Task)
    (hfind : db.tasks.find? (fun t => t.id == task_id && t.user_id == A) = some task) :
    ((dictGetD data "title" task.title = task.title ∧
      dictGetD data "description" task.description = task.description ∧
      dictGetD data "status" task.status = task.status) →
      ∃ b, update_task A task_id (some data) now db = Except.ok ((200, b), db)) ∧
    (¬ (dictGetD data "title" task.title = task.title ∧
        dictGetD data "description" task.description = task.description ∧
        dictGetD data "status" task.status = task.status) →
      ∃ b db', update_task A task_id (some data) now db =
          Except.ok ((200, b), db') ∧
        (∀ u ∈ db'.tasks, u.id = task.id → u.updated_at = now) ∧
        (∃ u ∈ db'.tasks, u.id = task.id)) := by
  obtain ⟨hmem, _, _⟩ := find_owned_spec db A task_id task hfind
  constructor
  · intro hsame
    refine ⟨Body.taskBrief "Task updated successfully" task.id
      (dictGetD data "title" task.title)
      (dictGetD data "description" task.description)
      (dictGetD data "status" task.status), ?_⟩
    simp [update_task, hfind, get_json, hsame.1, hsame.2.1, hsame.2.2]
  · intro hdiff
    have hcond : (dictGetD data "title" task.title == task.title &&
        (dictGetD data "description" task.description == task.description) &&
        (dictGetD data "status" task.status == task.status)) = false := by
      by_contra hcon
      rw [Bool.not_eq_false, Bool.and_eq_true, Bool.and_eq_true] at hcon
      exact hdiff ⟨by simpa using hcon.1.1, by simpa using hcon.1.2,
        by simpa using hcon.2⟩
    refine ⟨Body.taskBrief "Task updated successfully" task.id
        (dictGetD data "title" task.title)
        (dictGetD data "description" task.description)
        (dictGetD data "status" task.status),
      { db with
        tasks := db.tasks.map (fun t => if t.id == task.id then
          { task with
            title := dictGetD data "title" task.title,
            description := dictGetD data "description" task.description,
            status := dictGetD data "status" task.status,
            updated_at := now } else t) }, ?_, ?_, ?_⟩
    · simp only [update_task, hfind, get_json]
      rw [if_neg (by simp [hcond])]
    · intro u hu hid
      simp only [List.mem_map] at hu
      obtain ⟨x, hx, hfx⟩ := hu
      by_cases hxid : x.id = task.id
      · rw [← hfx]; simp [hxid]
      · rw [← hfx] at hid ⊢
        simp only [beq_iff_eq, if_neg hxid] at hid ⊢
        exact absurd hid hxid
    · refine ⟨{ task with
        title := dictGetD data "title" task.title,
        description := dictGetD data "description" task.description,
        status := dictGetD data "status" task.status,
        updated_at := now }, ?_, rfl⟩
      have := List.mem_map_of_mem (fun t => if t.id == task.id then
        { task with
          title := dictGetD data "title" task.title,
          description := dictGetD data "description" task.description,
          status := dictGetD data "status" task.status,
          updated_at := now } else t) hmem
      simpa using this

/-- C2 witness: on exDB, an update by owner 2 that changes the status to done
refreshes updated_at to the clock value, while the no-change branch leaves the
store untouched. -/
theorem claim2_witness :
    exDB.tasks.find? (fun t => t.id == 5 && t.user_id == 2) = some exTask ∧
    (((dictGetD [("status", "done")] "title" exTask.title = exTask.title ∧
       dictGetD [("status", "done")] "description" exTask.description =
         exTask.description ∧
       dictGetD [("status", "done")] "status" exTask.status = exTask.status) →
      ∃ b, update_task 2 5 (some [("status", "done")]) 99 exDB =
        Except.ok ((200, b), exDB)) ∧
     (¬ (dictGetD [("status", "done")] "title" exTask.title = exTask.title ∧
         dictGetD [("status", "done")] "description" exTask.description =
           exTask.description ∧
         dictGetD [("status", "done")] "status" exTask.status = exTask.status) →
      ∃ b db', update_task 2 5 (some [("status", "done")]) 99 exDB =
          Except.ok ((200, b), db') ∧
        (∀ u ∈ db'.tasks, u.id = exTask.id → u.updated_at = 99) ∧
        (∃ u ∈ db'.tasks, u.id = exTask.id))) :=
  ⟨by decide, claim2_updated_at_refresh exDB 2 5 99 [("status", "done")] exTask
    (by decide)⟩

/-- C3 fails on the code: a present JSON body lacking the required username
field makes register raise KeyError, which Flask surfaces as a 500 server
error and not as the claimed 400 client error. -/
theorem claim3_counterexample :
    runHandler exDB (register (some []) exDB) = ((500, Body.errorPage 500), exDB) ∧
    (500 : Nat) ≠ 400 :=
  ⟨by decide, by decide⟩

/-- C3 amended: a missing JSON body is rejected by get_json as a 400 client
error before any field is read, but a well-formed body that lacks a required
field (username for register and login, title for create) raises KeyError,
which is surfaced as a 500 server error rather than a 400 validation
response; in every case the store is untouched. -/
theorem claim3_missing_input (db : DB) (uid now : Nat) (data : JObj)
    (hu : dictGet data "username" = none) (ht : dictGet data "title" = none) :
    runHandler db (register none db) = ((400, Body.errorPage 400), db) ∧
    runHandler db (login none now db) = ((400, Body.errorPage 400), db) ∧
    runHandler db (create_task uid none now db) = ((400, Body.errorPage 400), db) ∧
    runHandler db (register (some data) db) = ((500, Body.errorPage 500), db) ∧
    runHandler db (login (some data) now db) = ((500, Body.errorPage 500), db) ∧
    runHandler db (create_task uid (some data) now db) =
      ((500, Body.errorPage 500), db) := by
  refine ⟨rfl, rfl, rfl, ?_, ?_, ?_⟩
  · simp [register, get_json, dictItem_none data "username" hu, runHandler, Exn.status]
  · simp [login, get_json, dictItem_none data "username" hu, runHandler, Exn.status]
  · simp [create_task, get_json, dictItem_none data "title" ht, runHandler, Exn.status]

/-- C3 witness: the empty JSON object lacks every required field, so all
three body-consuming endpoints answer 500 on it and 400 on an absent body. -/
theorem claim3_witness :
    dictGet [] "username" = none ∧ dictGet [] "title" = none ∧
    (runHandler exDBu (register none exDBu) = ((400, Body.errorPage 400), exDBu) ∧
     runHandler exDBu (login none 0 exDBu) = ((400, Body.errorPage 400), exDBu) ∧
     runHandler exDBu (create_task 1 none 0 exDBu) =
       ((400, Body.errorPage 400), exDBu) ∧
     runHandler exDBu (register (some []) exDBu) =
       ((500, Body.errorPage 500), exDBu) ∧
     runHandler exDBu (login (some []) 0 exDBu) =
       ((500, Body.errorPage 500), exDBu) ∧
     runHandler exDBu (create_task 1 (some []) 0 exDBu) =
       ((500, Body.errorPage 500), exDBu)) :=
  ⟨by decide, by decide, claim3_missing_input exDBu 1 0 [] (by decide) (by decide)⟩

/-- C4: registration checks the username first and independently of the
email; either conflict answers 400 naming the clashing field and leaves the
store untouched, and otherwise a user carrying a fresh id and the hashed
password is persisted and 201 returned. -/
theorem claim4_register_conflicts (db : DB) (data : JObj) (uname mail pw : String)
    (hu : dictGet data "username" = some uname)
    (he : dictGet data "email" = some mail)
    (hp : dictGet data "password" = some pw)
    (hid : ∀ u ∈ db.users, u.id < db.next_user_id) :
    ((∃ u ∈ db.users, u.username = uname) →
      register (some data) db =
        Except.ok ((400, Body.msg "Username already exists"), db)) ∧
    ((∀ u ∈ db.users, u.username ≠ uname) → (∃ u ∈ db.users, u.email = mail) →
      register (some data) db =
        Except.ok ((400, Body.msg "Email already exists"), db)) ∧
    ((∀ u ∈ db.users, u.username ≠ uname) → (∀ u ∈ db.users, u.email ≠ mail) →
      register (some data) db =
        Except.ok ((201, Body.msg "User created successfully"),
          { db with
            users := db.users ++ [{
              id := db.next_user_id, username := uname,
              email := mail, password_hash := generate_password_hash pw }],
            next_user_id := db.next_user_id + 1 }) ∧
      (∀ u ∈ db.users, u.id ≠ db.next_user_id)) := by
  refine ⟨?_, ?_, ?_⟩
  · rintro ⟨u0, hu0, hname⟩
    have hsome : (db.users.find? (fun u => u.username == uname)).isSome = true :=
      List.find?_isSome.mpr ⟨u0, hu0, by simp [hname]⟩
    simp [register, get_json, dictItem_some data "username" uname hu, hsome]
  · rintro hno ⟨u0, hu0, hmail⟩
    have hnone : db.users.find? (fun u => u.username == uname) = none :=
      List.find?_eq_none.mpr (fun u huu => by simpa using hno u huu)
    have hsome : (db.users.find? (fun u => u.email == mail)).isSome = true :=
      List.find?_isSome.mpr ⟨u0, hu0, by simp [hmail]⟩
    simp [register, get_json, dictItem_some data "username" uname hu,
      dictItem_some data "email" mail he, hnone, hsome]
  · intro hno hnomail
    have hnone : db.users.find? (fun u => u.username == uname) = none :=
      List.find?_eq_none.mpr (fun u huu => by simpa using hno u huu)
    have hnone2 : db.users.find? (fun u => u.email == mail) = none :=
      List.find?_eq_none.mpr (fun u huu => by simpa using hnomail u huu)
    refine ⟨?_, fun u huu => (hid u huu).ne⟩
    simp [register, get_json, dictItem_some data "username" uname hu,
      dictItem_some data "email" mail he, dictItem_some data "password" pw hp,
      hnone, hnone2]

/-- C4 witness: on the concrete store exDBu, registering the taken username
alice conflicts, a fresh pair persists a new user with the next id, and a
fresh username with the taken email conflicts on the email. -/
theorem claim4_witness :
    dictGet [("username", "bob"), ("email", "bob@example.com"),
      ("password", "pw2")] "username" = some "bob" ∧
    (∀ u ∈ exDBu.users, u.id < exDBu.next_user_id) ∧
    ((∃ u ∈ exDBu.users, u.username = "bob") →
      register (some [("username", "bob"), ("email", "bob@example.com"),
        ("password", "pw2")]) exDBu =
        Except.ok ((400, Body.msg "Username already exists"), exDBu)) ∧
    ((∀ u ∈ exDBu.users, u.username ≠ "bob") →
      (∃ u ∈ exDBu.users, u.email = "bob@example.com") →
      register (some [("username", "bob"), ("email", "bob@example.com"),
        ("password", "pw2")]) exDBu =
        Except.ok ((400, Body.msg "Email already exists"), exDBu)) ∧
    ((∀ u ∈ exDBu.users, u.username ≠ "bob") →
      (∀ u ∈ exDBu.users, u.email ≠ "bob@example.com") →
      register (some [("username", "bob"), ("email", "bob@example.com"),
        ("password", "pw2")]) exDBu =
        Except.ok ((201, Body.msg "User created successfully"),
          { exDBu with
            users := exDBu.users ++ [{
              id := exDBu.next_user_id,
              username := "bob", email := "bob@example.com",
              password_hash := generate_password_hash "pw2" }],
            next_user_id := exDBu.next_user_id + 1 }) ∧
      (∀ u ∈ exDBu.users, u.id ≠ exDBu.next_user_id)) :=
  ⟨by decide, by decide,
    (claim4_register_conflicts exDBu
      [("username", "bob"), ("email", "bob@example.com"), ("password", "pw2")]
      "bob" "bob@example.com" "pw2" (by decide) (by decide) (by decide)
      (by decide)).1,
    (claim4_register_conflicts exDBu
      [("username", "bob"), ("email", "bob@example.com"), ("password", "pw2")]
      "bob" "bob@example.com" "pw2" (by decide) (by decide) (by decide)
      (by decide)).2.1,
    (claim4_register_conflicts exDBu
      [("username", "bob"), ("email", "bob@example.com"), ("password", "pw2")]
      "bob" "bob@example.com" "pw2" (by decide) (by decide) (by decide)
      (by decide)).2.2⟩

/-- C5: an issued token carries the identity it was issued for and expires
exactly 3600 seconds (one hour) after issue; verification returns that
identity strictly before expiry, rejects the token from expiry on, rejects
any tampered signature, and a protected endpoint answers 401 without raising
whenever verification fails or no token is presented. -/
theorem claim5_token_lifecycle (secret : String) (uid now now2 : Nat) (t : Token)
    (db : DB) (handler : Nat → Except Exn Resp) :
    JWT_ACCESS_TOKEN_EXPIRES = 3600 ∧
    (create_access_token secret uid now).sub = uid ∧
    (create_access_token secret uid now).exp = now + 3600 ∧
    (now2 < now + 3600 →
      verify_token secret (create_access_token secret uid now) now2 = some uid) ∧
    (now + 3600 ≤ now2 →
      verify_token secret (create_access_token secret uid now) now2 = none) ∧
    (t.sig ≠ mac secret t.sub t.exp → verify_token secret t now2 = none) ∧
    (verify_token secret t now2 = none →
      jwt_required secret (some t) now2 db handler =
        Except.ok ((401, Body.msg "Token has expired or is invalid"), db)) ∧
    jwt_required secret none now2 db handler =
      Except.ok ((401, Body.msg "Missing Authorization Header"), db) := by
  refine ⟨rfl, rfl, rfl, ?_, ?_, ?_, ?_, rfl⟩
  · intro hlt
    simp [verify_token, create_access_token, JWT_ACCESS_TOKEN_EXPIRES, hlt]
  · intro hge
    rw [verify_token, if_neg]
    simp only [create_access_token, JWT_ACCESS_TOKEN_EXPIRES, not_and]
    intro _
    omega
  · intro hsig
    rw [verify_token, if_neg]
    exact fun hcon => hsig hcon.1
  · intro hv
    simp [jwt_required, hv]

/-- C5 witness: a token issued at time 0 for user 7 expires at 3600, is
accepted at 3599 with identity 7, rejected at 3600, a tampered copy is
rejected, and the protected wrapper answers 401 on it. -/
theorem claim5_witness :
    JWT_ACCESS_TOKEN_EXPIRES = 3600 ∧
    (create_access_token "secret-key" 7 0).sub = 7 ∧
    (create_access_token "secret-key" 7 0).exp = 0 + 3600 ∧
    ((3599 : Nat) < 0 + 3600 →
      verify_token "secret-key" (create_access_token "secret-key" 7 0) 3599 =
        some 7) ∧
    ((0 : Nat) + 3600 ≤ 3600 →
      verify_token "secret-key" (create_access_token "secret-key" 7 0) 3600 =
        none) ∧
    (({ sub := 7, exp := 3600, sig := 0 } : Token).sig ≠
        mac "secret-key" ({ sub := 7, exp := 3600, sig := 0 } : Token).sub
          ({ sub := 7, exp := 3600, sig := 0 } : Token).exp →
      verify_token "secret-key" { sub := 7, exp := 3600, sig := 0 } 3600 = none) ∧
    (verify_token "secret-key" { sub := 7, exp := 3600, sig := 0 } 3600 = none →
      jwt_required "secret-key" (some { sub := 7, exp := 3600, sig := 0 }) 3600
        exDB (fun uid => Except.ok (get_task uid 5 exDB)) =
        Except.ok ((401, Body.msg "Token has expired or is invalid"), exDB)) ∧
    jwt_required "secret-key" none 3600 exDB
      (fun uid => Except.ok (get_task uid 5 exDB)) =
      Except.ok ((401, Body.msg "Missing Authorization Header"), exDB) := by
  have h1 := claim5_token_lifecycle "secret-key" 7 0 3599
    { sub := 7, exp := 3600, sig := 0 } exDB
    (fun uid => Except.ok (get_task uid 5 exDB))
  have h2 := claim5_token_lifecycle "secret-key" 7 0 3600
    { sub := 7, exp := 3600, sig := 0 } exDB
    (fun uid => Except.ok (get_task uid 5 exDB))
  exact ⟨h1.1, h1.2.1, h1.2.2.1, fun hl => h1.2.2.2.1 hl,
    fun hg => h2.2.2.2.2.1 hg, fun hs => h2.2.2.2.2.2.1 hs,
    fun hv => h2.2.2.2.2.2.2.1 hv, h2.2.2.2.2.2.2.2⟩

/-- C6: creating a task and fetching it back by the returned id yields a
payload whose title, description and status are exactly the supplied values,
the description falling back to the empty string and the status to pending
when omitted. -/
theorem claim6_create_get_roundtrip (db : DB) (uid now : Nat) (data : JObj)
    (title : String)
    (ht : dictGet data "title" = some title)
    (hid : ∀ u ∈ db.tasks, u.id < db.next_task_id) :
    ∃ db', create_task uid (some data) now db = Except.ok
        ((201, Body.taskBrief "Task created successfully" db.next_task_id title
          (dictGetD data "description" "") (dictGetD data "status" "pending")),
        db') ∧
      get_task uid db.next_task_id db' =
        ((200, Body.taskFull db.next_task_id title
          (dictGetD data "description" "") (dictGetD data "status" "pending")
          now now), db') ∧
      (dictGet data "description" = none → dictGetD data "description" "" = "") ∧
      (dictGet data "status" = none → dictGetD data "status" "pending" = "pending") := by
  refine ⟨{ db with
      tasks := db.tasks ++ [{
        id := db.next_task_id, title := title,
        description := dictGetD data "description" "",
        status := dictGetD data "status" "pending",
        created_at := now, updated_at := now, user_id := uid }],
      next_task_id := db.next_task_id + 1 }, ?_, ?_, ?_, ?_⟩
  · simp [create_task, get_json, dictItem_some data "title" title ht]
  · have hnone : db.tasks.find?
        (fun t => t.id == db.next_task_id && t.user_id == uid) = none :=
      List.find?_eq_none.mpr (fun u huu => by
        simp only [Bool.and_eq_true, beq_iff_eq, not_and]
        exact fun hcon => absurd hcon (hid u huu).ne)
    simp [get_task, List.find?_append, hnone]
  · intro h; simp [dictGetD, h]
  · intro h; simp [dictGetD, h]

/-- C6 witness: creating a task titled groceries with an explicit description
and omitted status on exDB and reading it back returns exactly those values
with the pending default. -/
theorem claim6_witness :
    dictGet [("title", "groceries"), ("description", "milk")] "title" =
      some "groceries" ∧
    (∀ u ∈ exDB.tasks, u.id < exDB.next_task_id) ∧
    (∃ db', create_task 2 (some [("title", "groceries"), ("description", "milk")])
        77 exDB = Except.ok
        ((201, Body.taskBrief "Task created successfully" exDB.next_task_id
          "groceries"
          (dictGetD [("title", "groceries"), ("description", "milk")]
            "description" "")
          (dictGetD [("title", "groceries"), ("description", "milk")]
            "status" "pending")), db') ∧
      get_task 2 exDB.next_task_id db' =
        ((200, Body.taskFull exDB.next_task_id "groceries"
          (dictGetD [("title", "groceries"), ("description", "milk")]
            "description" "")
          (dictGetD [("title", "groceries"), ("description", "milk")]
            "status" "pending") 77 77), db') ∧
      (dictGet [("title", "groceries"), ("description", "milk")] "description" =
        none → dictGetD [("title", "groceries"), ("description", "milk")]
          "description" "" = "") ∧
      (dictGet [("title", "groceries"), ("description", "milk")] "status" =
        none → dictGetD [("title", "groceries"), ("description", "milk")]
          "status" "pending" = "pending")) :=
  ⟨by decide, by decide,
    claim6_create_get_roundtrip exDB 2 77
      [("title", "groceries"), ("description", "milk")] "groceries"
      (by decide) (by decide)⟩

/-- C7: an update of an owned task overwrites exactly the supplied fields
among title, description and status, every omitted field keeps its prior
value, the id, owner and created timestamp of the row are unchanged, and no
other row of the table is touched. -/
theorem claim7_update_frame (db : DB) (A task_id now : Nat) (data : JObj)
    (task : Task)
    (hfind : db.tasks.find? (fun t => t.id == task_id && t.user_id == A) = some task)
    (hnodup : (db.tasks.map Task.id).Nodup) :
    ∃ b db' task', update_task A task_id (some data) now db =
        Except.ok ((200, b), db') ∧
      task' ∈ db'.tasks ∧
      (∀ u ∈ db'.tasks, u.id = task.id → u = task') ∧
      task'.id = task.id ∧ task'.user_id = task.user_id ∧
      task'.created_at = task.created_at ∧
      (dictGet data "title" = none → task'.title = task.title) ∧
      (∀ v, dictGet data "title" = some v → task'.title = v) ∧
      (dictGet data "description" = none → task'.description = task.description) ∧
      (∀ v, dictGet data "description" = some v → task'.description = v) ∧
      (dictGet data "status" = none → task'.status = task.status) ∧
      (∀ v, dictGet data "status" = some v → task'.status = v) ∧
      (∀ u ∈ db.tasks, u.id ≠ task.id → u ∈ db'.tasks) := by
  obtain ⟨hmem, hidq, howner⟩ := find_owned_spec db A task_id task hfind
  by_cases hsame : (dictGetD data "title" task.title == task.title &&
      (dictGetD data "description" task.description == task.description) &&
      (dictGetD data "status" task.status == task.status)) = true
  · have h3 : dictGetD data "title" task.title = task.title ∧
        dictGetD data "description" task.description = task.description ∧
        dictGetD data "status" task.status = task.status := by
      simp only [Bool.and_eq_true, beq_iff_eq] at hsame
      exact ⟨hsame.1.1, hsame.1.2, hsame.2⟩
    refine ⟨Body.taskBrief "Task updated successfully" task.id
        (dictGetD data "title" task.title)
        (dictGetD data "description" task.description)
        (dictGetD data "status" task.status), db, task, ?_,
      hmem, fun u hu hid => task_id_inj db hnodup hu hmem hid,
      rfl, rfl, rfl, ?_, ?_, ?_, ?_, ?_, ?_, fun u hu _ => hu⟩
    · simp [update_task, hfind, get_json, hsame]
    · intro _; rfl
    · intro v hv; rw [← h3.1]; simp [dictGetD, hv]
    · intro _; rfl
    · intro v hv; rw [← h3.2.1]; simp [dictGetD, hv]
    · intro _; rfl
    · intro v hv; rw [← h3.2.2]; simp [dictGetD, hv]
  · have hcond : (dictGetD data "title" task.title == task.title &&
        (dictGetD data "description" task.description == task.description) &&
        (dictGetD data "status" task.status == task.status)) = false :=
      Bool.not_eq_true _ |>.mp hsame
    refine ⟨Body.taskBrief "Task updated successfully" task.id
        (dictGetD data "title" task.title)
        (dictGetD data "description" task.description)
        (dictGetD data "status" task.status),
      { db with
        tasks := db.tasks.map (fun t => if t.id == task.id then
          { task with
            title := dictGetD data "title" task.title,
            description := dictGetD data "description" task.description,
            status := dictGetD data "status" task.status,
            updated_at := now } else t) },
      { task with
        title := dictGetD data "title" task.title,
        description := dictGetD data "description" task.description,
        status := dictGetD data "status" task.status,
        updated_at := now }, ?_, ?_, ?_, rfl, rfl, rfl,
      ?_, ?_, ?_, ?_, ?_, ?_, ?_⟩
    · simp only [update_task, hfind, get_json]
      rw [if_neg (by simp [hcond])]
    · have := List.mem_map_of_mem (fun t => if t.id == task.id then
        { task with
          title := dictGetD data "title" task.title,
          description := dictGetD data "description" task.description,
          status := dictGetD data "status" task.status,
          updated_at := now } else t) hmem
      simpa using this
    · intro u hu hid
      simp only [List.mem_map] at hu
      obtain ⟨x, hx, hfx⟩ := hu
      by_cases hxid : x.id = task.id
      · rw [← hfx]; simp [hxid]
      · rw [← hfx] at hid
        simp only [beq_iff_eq, if_neg hxid] at hid
        exact absurd hid hxid
    · intro h; simp [dictGetD, h]
    · intro v hv; simp [dictGetD, hv]
    · intro h; simp [dictGetD, h]
    · intro v hv; simp [dictGetD, hv]
    · intro h; simp [dictGetD, h]
    · intro v hv; simp [dictGetD, hv]
    · intro u hu hne
      have := List.mem_map_of_mem (fun t => if t.id == task.id then
        { task with
          title := dictGetD data "title" task.title,
          description := dictGetD data "description" task.description,
          status := dictGetD data "status" task.status,
          updated_at := now } else t) hu
      simpa [if_neg hne] using this

/-- C7 witness: on exDB, owner 2 updating only the title of task 5 keeps the
description, status, id, owner and created timestamp. -/
theorem claim7_witness :
    exDB.tasks.find? (fun t => t.id == 5 && t.user_id == 2) = some exTask ∧
    (exDB.tasks.map Task.id).Nodup ∧
    (∃ b db' task', update_task 2 5 (some [("title", "new title")]) 42 exDB =
        Except.ok ((200, b), db') ∧
      task' ∈ db'.tasks ∧
      (∀ u ∈ db'.tasks, u.id = exTask.id → u = task') ∧
      task'.id = exTask.id ∧ task'.user_id = exTask.user_id ∧
      task'.created_at = exTask.created_at ∧
      (dictGet [("title", "new title")] "title" = none →
        task'.title = exTask.title) ∧
      (∀ v, dictGet [("title", "new title")] "title" = some v →
        task'.title = v) ∧
      (dictGet [("title", "new title")] "description" = none →
        task'.description = exTask.description) ∧
      (∀ v, dictGet [("title", "new title")] "description" = some v →
        task'.description = v) ∧
      (dictGet [("title", "new title")] "status" = none →
        task'.status = exTask.status) ∧
      (∀ v, dictGet [("title", "new title")] "status" = some v →
        task'.status = v) ∧
      (∀ u ∈ exDB.tasks, u.id ≠ exTask.id → u ∈ db'.tasks)) :=
  ⟨by decide, by decide,
    claim7_update_frame exDB 2 5 42 [("title", "new title")] exTask
      (by decide) (by decide)⟩

/-- C8: a login naming an existing user with a wrong password and a login
naming no user at all produce the literally identical 401 response over the
untouched store, and login succeeds exactly when the user exists and the
password verifies, answering the token issued for that user and the
username. -/
theorem claim8_login_indistinguishable (db : DB) (data : JObj) (uname pw : String)
    (now : Nat)
    (hu : dictGet data "username" = some uname)
    (hp : dictGet data "password" = some pw) :
    ((∀ u ∈ db.users, u.username ≠ uname) →
      login (some data) now db =
        Except.ok ((401, Body.msg "Invalid credentials"), db)) ∧
    (∀ user, db.users.find? (fun u => u.username == uname) = some user →
      (check_password_hash user.password_hash pw = false →
        login (some data) now db =
          Except.ok ((401, Body.msg "Invalid credentials"), db)) ∧
      (check_password_hash user.password_hash pw = true →
        login (some data) now db = Except.ok ((200,
          Body.loginOk (create_access_token JWT_SECRET_KEY user.id now)
            user.username), db))) := by
  refine ⟨?_, ?_⟩
  · intro hno
    have hnone : db.users.find? (fun u => u.username == uname) = none :=
      List.find?_eq_none.mpr (fun u huu => by simpa using hno u huu)
    simp [login, get_json, dictItem_some data "username" uname hu, hnone]
  · intro user hfind
    constructor
    · intro hbad
      simp [login, get_json, dictItem_some data "username" uname hu, hfind,
        dictItem_some data "password" pw hp, hbad]
    · intro hgood
      simp [login, get_json, dictItem_some data "username" uname hu, hfind,
        dictItem_some data "password" pw hp, hgood]

/-- C8 witness: on exDBu, logging in as the unknown carol and as alice with a
wrong password both answer the identical 401 response, and alice with the
right password receives her token and username. -/
theorem claim8_witness :
    dictGet [("username", "carol"), ("password", "pw")] "username" =
      some "carol" ∧
    dictGet [("username", "alice"), ("password", "pw")] "username" =
      some "alice" ∧
    ((∀ u ∈ exDBu.users, u.username ≠ "carol") →
      login (some [("username", "carol"), ("password", "pw")]) 0 exDBu =
        Except.ok ((401, Body.msg "Invalid credentials"), exDBu)) ∧
    (∀ user, exDBu.users.find? (fun u => u.username == "alice") = some user →
      (check_password_hash user.password_hash "bad" = false →
        login (some [("username", "alice"), ("password", "bad")]) 0 exDBu =
          Except.ok ((401, Body.msg "Invalid credentials"), exDBu)) ∧
      (check_password_hash user.password_hash "bad" = true →
        login (some [("username", "alice"), ("password", "bad")]) 0 exDBu =
          Except.ok ((200, Body.loginOk
            (create_access_token JWT_SECRET_KEY user.id 0) user.username),
          exDBu))) ∧
    (∀ user, exDBu.users.find? (fun u => u.username == "alice") = some user →
      (check_password_hash user.password_hash "pw" = false →
        login (some [("username", "alice"), ("password", "pw")]) 0 exDBu =
          Except.ok ((401, Body.msg "Invalid credentials"), exDBu)) ∧
      (check_password_hash user.password_hash "pw" = true →
        login (some [("username", "alice"), ("password", "pw")]) 0 exDBu =
          Except.ok ((200, Body.loginOk
            (create_access_token JWT_SECRET_KEY user.id 0) user.username),
          exDBu))) :=
  ⟨by decide, by decide,
    (claim8_login_indistinguishable exDBu
      [("username", "carol"), ("password", "pw")] "carol" "pw" 0
      (by decide) (by decide)).1,
    (claim8_login_indistinguishable exDBu
      [("username", "alice"), ("password", "bad")] "alice" "bad" 0
      (by decide) (by decide)).2,
    (claim8_login_indistinguishable exDBu
      [("username", "alice"), ("password", "pw")] "alice" "pw" 0
      (by decide) (by decide)).2⟩

/-- C9: deleting an owned task removes exactly that row: an immediately
subsequent get, update or delete of the same id by the same caller answers
the uniform 404 response, every other row survives unchanged, and nothing
outside the deleted row is affected. -/
theorem claim9_delete_permanent (db : DB) (A task_id now : Nat)
    (body : Option JObj) (task : Task)
    (hfind : db.tasks.find? (fun t => t.id == task_id && t.user_id == A) = some task)
    (hnodup : (db.tasks.map Task.id).Nodup) :
    ∃ db', delete_task A task_id db =
        ((200, Body.msg "Task deleted successfully"), db') ∧
      get_task A task_id db' = ((404, Body.msg "Task not found"), db') ∧
      update_task A task_id body now db' =
        Except.ok ((404, Body.msg "Task not found"), db') ∧
      delete_task A task_id db' = ((404, Body.msg "Task not found"), db') ∧
      (∀ u ∈ db.tasks, u ≠ task → u ∈ db'.tasks) ∧
      (∀ u ∈ db'.tasks, u ∈ db.tasks ∧ u ≠ task) := by
  obtain ⟨hmem, hidq, howner⟩ := find_owned_spec db A task_id task hfind
  have hnone : (db.tasks.filter (fun t => !(t.id == task.id))).find?
      (fun t => t.id == task_id && t.user_id == A) = none := by
    refine List.find?_eq_none.mpr ?_
    intro u hu hpred
    rw [List.mem_filter] at hu
    simp only [Bool.and_eq_true, beq_iff_eq] at hpred
    simp only [Bool.not_eq_true', beq_eq_false_iff_ne, ne_eq] at hu
    exact hu.2 (hpred.1.trans hidq.symm)
  refine ⟨{ db with tasks := db.tasks.filter (fun t => !(t.id == task.id)) },
    ?_, ?_, ?_, ?_, ?_, ?_⟩
  · simp [delete_task, hfind]
  · simp [get_task, hnone]
  · simp [update_task, hnone]
  · simp [delete_task, hnone]
  · intro u hu hne
    rw [List.mem_filter]
    refine ⟨hu, ?_⟩
    simp only [Bool.not_eq_true', beq_eq_false_iff_ne, ne_eq]
    exact fun hid => hne (task_id_inj db hnodup hu hmem hid)
  · intro u hu
    rw [List.mem_filter] at hu
    refine ⟨hu.1, fun heq => ?_⟩
    have := hu.2
    rw [heq] at this
    simp at this

/-- C9 witness: owner 2 deletes task 5 of exDB; the id then answers 404 to
get, update and delete, and the empty remainder of the table is untouched. -/
theorem claim9_witness :
    exDB.tasks.find? (fun t => t.id == 5 && t.user_id == 2) = some exTask ∧
    (exDB.tasks.map Task.id).Nodup ∧
    (∃ db', delete_task 2 5 exDB =
        ((200, Body.msg "Task deleted successfully"), db') ∧
      get_task 2 5 db' = ((404, Body.msg "Task not found"), db') ∧
      update_task 2 5 (some [("status", "done")]) 0 db' =
        Except.ok ((404, Body.msg "Task not found"), db') ∧
      delete_task 2 5 db' = ((404, Body.msg "Task not found"), db') ∧
      (∀ u ∈ exDB.tasks, u ≠ exTask → u ∈ db'.tasks) ∧
      (∀ u ∈ db'.tasks, u ∈ exDB.tasks ∧ u ≠ exTask)) :=
  ⟨by decide, by decide,
    claim9_delete_permanent exDB 2 5 0 (some [("status", "done")]) exTask
      (by decide) (by decide)⟩

/-- Register leaves the store untouched on every non-201 outcome. -/
theorem register_atomic (body : Option JObj) (db : DB) (r : (Nat × Body) × DB)
    (h : register body db = Except.ok r) (h2 : r.1.1 ≠ 201) : r.2 = db := by
  unfold register at h
  split at h
  · simp at h
  · split at h
    · simp at h
    · split at h
      · cases Except.ok.inj h; rfl
      · split at h
        · simp at h
        · split at h
          · cases Except.ok.inj h; rfl
          · split at h
            · simp at h
            · cases Except.ok.inj h
              simp at h2

/-- Login never mutates the store. -/
theorem login_atomic (body : Option JObj) (now : Nat) (db : DB)
    (r : (Nat × Body) × DB) (h : login body now db = Except.ok r) : r.2 = db := by
  unfold login at h
  split at h
  · simp at h
  · split at h
    · simp at h
    · split at h
      · cases Except.ok.inj h; rfl
      · split at h
        · simp at h
        · split at h
          · cases Except.ok.inj h; rfl
          · cases Except.ok.inj h; rfl

/-- Get never mutates the store. -/
theorem get_task_atomic (A task_id : Nat) (db : DB) :
    (get_task A task_id db).2 = db := by
  unfold get_task
  split <;> rfl

/-- Update leaves the store untouched on a 404 outcome. -/
theorem update_task_atomic (A task_id : Nat) (body : Option JObj) (now : Nat)
    (db : DB) (r : (Nat × Body) × DB)
    (h : update_task A task_id body now db = Except.ok r) (h2 : r.1.1 = 404) :
    r.2 = db := by
  unfold update_task at h
  split at h
  · cases Except.ok.inj h; rfl
  · split at h
    · simp at h
    · dsimp only at h
      split at h
      · cases Except.ok.inj h
        simp at h2
      · cases Except.ok.inj h
        simp at h2

/-- Delete leaves the store untouched on a 404 outcome. -/
theorem delete_task_atomic (A task_id : Nat) (db : DB)
    (h : (delete_task A task_id db).1.1 = 404) :
    (delete_task A task_id db).2 = db := by
  unfold delete_task at h ⊢
  split at h
  · rfl
  · simp at h

/-- C10: every error outcome is atomic: a register answering anything but
201 creates no user, a login answering 401 mutates nothing, and a get,
update or delete answering 404 leaves the task table exactly as it was. -/
theorem claim10_error_atomicity (db : DB) (A task_id now : Nat)
    (bodyR bodyL bodyU : Option JObj) (rR rL rU : (Nat × Body) × DB)
    (hR : register bodyR db = Except.ok rR) (hR2 : rR.1.1 ≠ 201)
    (hL : login bodyL now db = Except.ok rL) (hL2 : rL.1.1 = 401)
    (hU : update_task A task_id bodyU now db = Except.ok rU) (hU2 : rU.1.1 = 404)
    (hG : (get_task A task_id db).1.1 = 404)
    (hD : (delete_task A task_id db).1.1 = 404) :
    rR.2 = db ∧ rL.2 = db ∧ (get_task A task_id db).2 = db ∧
    rU.2 = db ∧ (delete_task A task_id db).2 = db :=
  ⟨register_atomic bodyR db rR hR hR2, login_atomic bodyL now db rL hL,
    get_task_atomic A task_id db, update_task_atomic A task_id bodyU now db rU hU hU2,
    delete_task_atomic A task_id db hD⟩

/-- C10 witness: on exDBu, a conflicting registration, a wrong-password
login and a get, update and delete of an absent task id all answer their
error codes with the store returned exactly as it was. -/
theorem claim10_witness :
    register (some [("username", "alice")]) exDBu = Except.ok rRex ∧
    rRex.1.1 ≠ 201 ∧
    login (some [("username", "alice"), ("password", "bad")]) 0 exDBu =
      Except.ok rLex ∧
    rLex.1.1 = 401 ∧
    update_task 1 9 none 0 exDBu = Except.ok rUex ∧
    rUex.1.1 = 404 ∧
    (get_task 1 9 exDBu).1.1 = 404 ∧
    (delete_task 1 9 exDBu).1.1 = 404 ∧
    (rRex.2 = exDBu ∧ rLex.2 = exDBu ∧ (get_task 1 9 exDBu).2 = exDBu ∧
     rUex.2 = exDBu ∧ (delete_task 1 9 exDBu).2 = exDBu) :=
  ⟨by decide, by decide, by decide, by decide, by decide, by decide, by decide,
    by decide,
    claim10_error_atomicity exDBu 1 9 0 (some [("username", "alice")])
      (some [("username", "alice"), ("password", "bad")]) none rRex rLex rUex
      (by decide) (by decide) (by decide) (by decide) (by decide) (by decide)
      (by decide) (by decide)⟩

end TM
